import Mathlib

/-!
Verification development for the Tempo tracing integration
(`core.py`, `api_tracing.py`, `config.py`).

The Python source is shallowly embedded: strings are `List Char`
(so that Python's `str.lower` and substring tests can be reasoned
about), configuration values are `Option String` with Python
truthiness, fallible operations return `Except`, and the decorators'
control flow is embedded as explicit functions from the wrapped
function's behaviour (outcome of its n-th invocation) to the
observable run (caller-visible outcome, number of invocations of the
wrapped function, final span record).
-/

set_option maxRecDepth 8192

namespace Tempo

/-! ### Python string primitives -/

/-- Python `str.lower` on one character (ASCII range, which is all the
source compares against). -/
def pyLower (c : Char) : Char :=
  if 'A' ≤ c ∧ c ≤ 'Z' then Char.ofNat (c.toNat + 32) else c

/-- `listStartsWith needle hay`: `hay` begins with `needle`. -/
def listStartsWith : List Char → List Char → Bool
  | [], _ => true
  | _ :: _, [] => false
  | a :: as, b :: bs => a == b && listStartsWith as bs

/-- Python's `needle in hay` substring test. -/
def containsSub (needle : List Char) : List Char → Bool
  | [] => listStartsWith needle []
  | c :: t => listStartsWith needle (c :: t) || containsSub needle t

theorem listStartsWith_map (f : Char → Char) :
    ∀ n h, listStartsWith n h = true →
      listStartsWith (n.map f) (h.map f) = true := by
  intro n
  induction n with
  | nil => intro h _; simp [listStartsWith]
  | cons a as ih =>
    intro h hs
    cases h with
    | nil => simp [listStartsWith] at hs
    | cons b bs =>
      simp only [listStartsWith, Bool.and_eq_true, beq_iff_eq] at hs
      obtain ⟨rfl, htail⟩ := hs
      simp [List.map_cons, listStartsWith, ih bs htail]

theorem containsSub_map (f : Char → Char) (n : List Char) :
    ∀ h, containsSub n h = true →
      containsSub (n.map f) (h.map f) = true := by
  intro h
  induction h with
  | nil =>
    intro hc
    cases n with
    | nil => simp [containsSub, listStartsWith]
    | cons a as => simp [containsSub, listStartsWith] at hc
  | cons c t ih =>
    intro hc
    simp only [containsSub, Bool.or_eq_true] at hc ⊢
    cases hc with
    | inl hs => exact Or.inl (listStartsWith_map f n (c :: t) hs)
    | inr ht => exact Or.inr (ih ht)

/-! ### Span attribute keys and values

Python builds attribute keys with f-strings (`f"http.header.{key}"`,
`f"db.kwarg.{key}"`, ...).  The distinct literal prefixes make these
key families pairwise disjoint, which the embedding captures with an
inductive key type, one constructor per f-string shape. -/

inductive AttrKey where
  | method
  | url
  | route
  | query (k : List Char)
  | pathParam (k : List Char)
  | header (k : List Char)
  | statusCode
  | responseBody
  | durationMs
  | errorMessage
  | errorType
  | dbOperation
  | dbTable
  | dbArg (i : Nat)
  | dbKwarg (k : List Char)
deriving DecidableEq

inductive AttrVal where
  | s (v : List Char)
  | n (v : Nat)
deriving DecidableEq

/-! ### Route wrapper: request attribute extraction
(`api_tracing.py`, `trace_api_route`, lines 66-97) -/

structure RequestInfo where
  method : List Char
  url : List Char
  /-- `request.scope["route"].path` when present, else `"unknown"`. -/
  routePath : List Char
  queryParams : List (List Char × List Char)
  pathParams : List (List Char × List Char)
  headers : List (List Char × List Char)

/-- `key.lower() in ["authorization", "cookie"]` (line 96). -/
def isSensitiveHeader (k : List Char) : Bool :=
  k.map pyLower == "authorization".toList || k.map pyLower == "cookie".toList

/-- Header loop, lines 93-97: each header is added under
`http.header.{key}` unless its lowered name is sensitive. -/
def headerAttrsList : List (List Char × List Char) → List (AttrKey × AttrVal)
  | [] => []
  | (k, v) :: rest =>
    (if isSensitiveHeader k then [] else [(AttrKey.header k, AttrVal.s v)])
      ++ headerAttrsList rest

/-- Request attribute assembly, `trace_api_route` lines 66-97 (the
request-body branch, lines 100-107, is a `pass` in the source and adds
nothing). -/
def routeRequestAttrs (include_headers include_query_params include_path_params : Bool)
    (req : RequestInfo) : List (AttrKey × AttrVal) :=
  [(AttrKey.method, AttrVal.s req.method),
   (AttrKey.url, AttrVal.s req.url),
   (AttrKey.route, AttrVal.s req.routePath)]
  ++ (if include_query_params then
        req.queryParams.map (fun kv => (AttrKey.query kv.1, AttrVal.s kv.2))
      else [])
  ++ (if include_path_params then
        req.pathParams.map (fun kv => (AttrKey.pathParam kv.1, AttrVal.s kv.2))
      else [])
  ++ (if include_headers then headerAttrsList req.headers else [])

/-! ### Route wrapper: response attributes
(`trace_api_route`, lines 140-151) -/

structure RespInfo where
  statusCode : Nat
  /-- `response.body` decoded as UTF-8; `none` when the response has no
  `body` attribute or decoding raises (line 150-151 logs and skips). -/
  body : Option (List Char)

/-- Response attribute extraction, lines 140-151: status code always
(for a `Response` instance), body only when `include_response_body`
is set and the decoded body has length at most 4096. -/
def routeResponseAttrs (include_response_body : Bool) (resp : Option RespInfo) :
    List (AttrKey × AttrVal) :=
  match resp with
  | none => []
  | some r =>
    [(AttrKey.statusCode, AttrVal.n r.statusCode)]
    ++ (if include_response_body then
          match r.body with
          | some b => if b.length ≤ 4096 then [(AttrKey.responseBody, AttrVal.s b)] else []
          | none => []
        else [])

/-! ### DB wrapper: parameter attribute extraction
(`trace_db_operation`, lines 235-261) -/

/-- One positional argument as the wrapper sees it: whether it is a
`Request` instance (skipped) and its `str()` rendering. -/
structure DbArg where
  isRequest : Bool
  strVal : List Char
deriving DecidableEq

/-- Positional-argument loop, lines 248-253: `enumerate` index `i`
advances over every argument, but an attribute `db.arg.{i}` is added
only for non-`Request` arguments whose rendering has length at most
256 (longer renderings are skipped, not truncated). -/
def argAttrsFrom : Nat → List DbArg → List (AttrKey × AttrVal)
  | _, [] => []
  | i, a :: rest =>
    (if !a.isRequest then
       if a.strVal.length ≤ 256 then [(AttrKey.dbArg i, AttrVal.s a.strVal)] else []
     else [])
      ++ argAttrsFrom (i + 1) rest

/-- `"password" in key.lower() or "secret" in key.lower()` (line 258). -/
def isSensitiveKwarg (k : List Char) : Bool :=
  containsSub ("password".toList) (k.map pyLower)
    || containsSub ("secret".toList) (k.map pyLower)

/-- Keyword-argument loop, lines 256-261: `db.kwarg.{key}` added unless
the lowered key contains `password` or `secret`, and only when the
rendering has length at most 256 (longer renderings are skipped). -/
def kwargAttrsList : List (List Char × List Char) → List (AttrKey × AttrVal)
  | [] => []
  | (k, v) :: rest =>
    (if !isSensitiveKwarg k then
       if v.length ≤ 256 then [(AttrKey.dbKwarg k, AttrVal.s v)] else []
     else [])
      ++ kwargAttrsList rest

/-- Span attribute assembly of `trace_db_operation`, lines 235-261:
`db.operation`, optional `db.table`, then (when `include_parameters`)
the positional and keyword argument attributes.  `skipFirst` embeds the
self/cls detection of line 245; when set, the loop runs over
`args[1:]`. -/
def dbOperationAttrs (operation : List Char) (table : Option (List Char))
    (include_parameters skipFirst : Bool)
    (args : List DbArg) (kwargs : List (List Char × List Char)) :
    List (AttrKey × AttrVal) :=
  [(AttrKey.dbOperation, AttrVal.s operation)]
  ++ (match table with
      | some t => [(AttrKey.dbTable, AttrVal.s t)]
      | none => [])
  ++ (if include_parameters then
        argAttrsFrom 0 (if skipFirst then args.drop 1 else args)
          ++ kwargAttrsList kwargs
      else [])

/-! ### Decorator control flow
(`trace_api_route` lines 109-182, `trace_db_operation` lines 217-301)

The wrapped function's behaviour is a function `Nat → Outcome`: the
outcome of its n-th invocation.  The embedding returns what the caller
observes, how many times the wrapped function was invoked, and the
final state of the span created for the call (if any).  Span
bookkeeping operations themselves (`create_span`, `set_attribute`,
`record_exception`, `set_status`) are modelled as non-faulting, which
is the scenario all the claims about the wrappers quantify over. -/

structure ExcInfo where
  /-- `e.__class__.__name__` -/
  ty : List Char
  /-- `str(e)` -/
  msg : List Char
deriving DecidableEq

inductive Outcome where
  | ret (v : Nat)
  | exc (e : ExcInfo)
deriving DecidableEq

inductive SpanStatus where
  | unset
  | ok
  | error
deriving DecidableEq

structure SpanFinal where
  status : SpanStatus
  /-- exception events recorded via `span.record_exception` -/
  exceptionEvents : List ExcInfo
  /-- the `error.message` attribute, when set -/
  errorMessage : Option (List Char)
  /-- the `error.type` attribute, when set -/
  errorType : Option (List Char)
deriving DecidableEq

structure WrapperRun where
  /-- what the wrapper's caller observes -/
  result : Outcome
  /-- number of invocations of the wrapped function -/
  calls : Nat
  /-- the span created for this call, if any, in its final state -/
  span : Option SpanFinal
deriving DecidableEq

/-- `execute_with_span` of `trace_api_route` (lines 125-179), including
the client lookup of lines 109-118 as the two availability flags
(`get_telemetry` / `get_tempo` raising `RuntimeError` yields `none`).

Control flow of the source:
* no client: `return await func(...)` (line 131) — but this sits
  inside the outer `try`, so an exception from `func` is caught at
  line 175, logged, and `func` is invoked again (line 179);
* client present, `func` returns: attributes and `OK` status set, the
  response returned (lines 136-162), one invocation;
* client present, `func` raises `e`: the handler at lines 163-174
  records the exception, sets `ERROR` status and the `error.message` /
  `error.type` attributes, then re-raises — and the re-raised `e` is
  caught by the outer handler at line 175, which logs it and invokes
  `func` a second time (line 179); whatever the second invocation does
  is what the caller observes. -/
def route_execute_with_span (tempoAvail telemetryAvail : Bool)
    (f : Nat → Outcome) : WrapperRun :=
  if !(tempoAvail || telemetryAvail) then
    match f 0 with
    | Outcome.ret v => ⟨Outcome.ret v, 1, none⟩
    | Outcome.exc _ => ⟨f 1, 2, none⟩
  else
    match f 0 with
    | Outcome.ret v => ⟨Outcome.ret v, 1, some ⟨SpanStatus.ok, [], none, none⟩⟩
    | Outcome.exc e =>
      ⟨f 1, 2, some ⟨SpanStatus.error, [e], some e.msg, some e.ty⟩⟩

/-- The wrapper of `trace_db_operation` (lines 217-301).  Unlike the
route wrapper, the no-client early return (lines 231-232) sits before
the `try` of line 266, so in that case an exception from `func`
propagates directly.  With a client, the structure is the same as the
route wrapper: the inner handler (lines 286-297) records the exception
and re-raises, the outer handler (lines 298-301) catches the re-raised
exception and invokes `func` a second time. -/
def db_wrapper_run (tempoAvail telemetryAvail : Bool)
    (f : Nat → Outcome) : WrapperRun :=
  if !telemetryAvail && !tempoAvail then
    ⟨f 0, 1, none⟩
  else
    match f 0 with
    | Outcome.ret v => ⟨Outcome.ret v, 1, some ⟨SpanStatus.ok, [], none, none⟩⟩
    | Outcome.exc e =>
      ⟨f 1, 2, some ⟨SpanStatus.error, [e], some e.msg, some e.ty⟩⟩

/-! ### Python exception taxonomy

Exception classes that appear in `core.py`'s circuit-breaker
configuration and in the file-reading path, with Python's subclass
relation (`ConnectionError` is a subclass of `OSError`; `IOError` is
an alias of `OSError`; `FileNotFoundError`, `PermissionError`,
`IsADirectoryError` are subclasses of `OSError`). -/

inductive PyExcType where
  | rpcError
  | osError
  | connectionError
  | connectionRefusedError
  | fileNotFoundError
  | permissionError
  | isADirectoryError
  | runtimeError
  | valueError
deriving DecidableEq

/-- `isSubclass a b`: Python `issubclass(a, b)`. -/
def isSubclass : PyExcType → PyExcType → Bool
  | a, b =>
    a == b ||
    match a, b with
    | PyExcType.connectionError, PyExcType.osError => true
    | PyExcType.connectionRefusedError, PyExcType.connectionError => true
    | PyExcType.connectionRefusedError, PyExcType.osError => true
    | PyExcType.fileNotFoundError, PyExcType.osError => true
    | PyExcType.permissionError, PyExcType.osError => true
    | PyExcType.isADirectoryError, PyExcType.osError => true
    | _, _ => false

/-- Membership in the `expected_exception` tuple of the `@circuit`
decorator on `_setup_trace_provider` (core.py lines 47-52):
`(grpc.RpcError, ConnectionError, RuntimeError)`. -/
def isExpectedExc (t : PyExcType) : Bool :=
  isSubclass t PyExcType.rpcError
    || isSubclass t PyExcType.connectionError
    || isSubclass t PyExcType.runtimeError

/-- The `IOError`-class conditions a failing `open`/`read` raises
(`IOError` is `OSError`; concrete file errors are its non-connection
subclasses). -/
def isFileIOError (t : PyExcType) : Bool :=
  t == PyExcType.osError || t == PyExcType.fileNotFoundError
    || t == PyExcType.permissionError || t == PyExcType.isADirectoryError

structure PyError where
  ty : PyExcType
  msg : String
deriving DecidableEq

theorem fileIOError_not_expected (t : PyExcType) :
    isFileIOError t = true → isExpectedExc t = false := by
  cases t <;> simp [isFileIOError, isExpectedExc, isSubclass]

/-! ### Credential resolution
(`core.py`, `_get_tempo_credentials`, lines 87-133) -/

/-- File contents (`open(..., "rb").read()`). -/
abbrev Bytes := List Nat

/-- grpc credential objects as built by `_get_tempo_credentials`:
`grpc.ssl_channel_credentials(root_certificates, private_key,
certificate_chain)`, `grpc.access_token_call_credentials(token)`, and
`grpc.composite_channel_credentials(channel, call)`. -/
inductive Cred where
  | ssl (rootCertificates privateKey certificateChain : Bytes)
  | accessToken (token : String)
  | composite (channel call : Cred)
deriving DecidableEq

/-- Python truthiness of an optional string setting (`None` and `""`
are falsy). -/
def pyTruthy : Option String → Bool
  | none => false
  | some s => !s.isEmpty

/-- The configuration values `_get_tempo_credentials` reads
(config.py: all default to `None`). -/
structure TempoConfig where
  ca_file : Option String
  cert_file : Option String
  key_file : Option String
  username : Option String
  password : Option String
  bearer_token : Option String

/-- `_get_tempo_credentials` (core.py lines 87-133), parametrised by
the filesystem: `readFile p` is `open(p, "rb").read()`, returning the
bytes or raising an error that propagates (there is no handler around
the reads in the source). -/
def get_tempo_credentials (cfg : TempoConfig)
    (readFile : String → Except PyError Bytes) : Except PyError (Option Cred) :=
  if pyTruthy cfg.ca_file && pyTruthy cfg.cert_file && pyTruthy cfg.key_file then do
    let ca_data ← readFile (cfg.ca_file.getD "")
    let cert_data ← readFile (cfg.cert_file.getD "")
    let key_data ← readFile (cfg.key_file.getD "")
    let credentials := Cred.ssl ca_data key_data cert_data
    if pyTruthy cfg.username && pyTruthy cfg.password then
      pure (some (Cred.composite credentials
        (Cred.accessToken ((cfg.username.getD "") ++ ":" ++ (cfg.password.getD "")))))
    else if pyTruthy cfg.bearer_token then
      pure (some (Cred.composite credentials
        (Cred.accessToken (cfg.bearer_token.getD ""))))
    else
      pure (some credentials)
  else if pyTruthy cfg.username && pyTruthy cfg.password then
    pure (some (Cred.accessToken
      ((cfg.username.getD "") ++ ":" ++ (cfg.password.getD ""))))
  else if pyTruthy cfg.bearer_token then
    pure (some (Cred.accessToken (cfg.bearer_token.getD "")))
  else
    pure none

/-! ### Exporter-setup circuit breaker

`_setup_trace_provider` is guarded by `@circuit(failure_threshold=3,
recovery_timeout=30, expected_exception=(grpc.RpcError,
ConnectionError, RuntimeError), fallback_function=...)` (core.py lines
47-52).  The `circuit` decorator comes from the external
`circuitbreaker` package, which is not part of this repository, so its
state machine is modelled from the spec (§4.2): CLOSED until 3
consecutive expected failures, then OPEN for a 30-second recovery
timeout during which calls short-circuit to the fallback, then
HALF_OPEN admitting one probe; a successful probe resets to CLOSED
with failure counter 0, a failing probe re-opens with a fresh timer.
Unexpected exceptions propagate to the caller without counting toward
the circuit.  Time is a discrete `Nat` clock in seconds. -/

structure CB where
  failures : Nat
  /-- time at which the breaker last opened, `none` when it has not -/
  openedAt : Option Nat
deriving DecidableEq

inductive CBKind where
  | closed
  | opened
  | halfOpen
deriving DecidableEq

def cbKind (s : CB) (now : Nat) : CBKind :=
  match s.openedAt with
  | none => CBKind.closed
  | some t => if now < t + 30 then CBKind.opened else CBKind.halfOpen

/-- Outcome of one execution of the guarded setup body. -/
inductive SetupOutcome where
  | succeeds
  /-- raises an exception in the `expected_exception` tuple -/
  | failsExpected
  /-- raises an exception outside the `expected_exception` tuple -/
  | failsUnexpected (e : PyError)
deriving DecidableEq

/-- What one call through the breaker did. -/
inductive CallEffect where
  /-- the setup body was executed (`ok` says whether it succeeded) -/
  | bodyRan (ok : Bool)
  /-- the body was not executed; the warning-logging fallback ran -/
  | fallbackRan
  /-- the body raised an unexpected exception, re-raised to the caller -/
  | propagated (e : PyError)
deriving DecidableEq

/-- Modelled from the spec: one call through the circuit breaker
(`circuitbreaker` package, configured by core.py lines 47-52; the
package itself is an external dependency absent from the repository).
-/
def cbCall (s : CB) (now : Nat) (body : SetupOutcome) : CB × CallEffect :=
  match cbKind s now with
  | CBKind.opened => (s, CallEffect.fallbackRan)
  | k =>
    match body with
    | SetupOutcome.succeeds => (⟨0, none⟩, CallEffect.bodyRan true)
    | SetupOutcome.failsExpected =>
      match k with
      | CBKind.halfOpen => (⟨s.failures + 1, some now⟩, CallEffect.bodyRan false)
      | _ =>
        let n := s.failures + 1
        (⟨n, if 3 ≤ n then some now else none⟩, CallEffect.bodyRan false)
    | SetupOutcome.failsUnexpected e => (s, CallEffect.propagated e)

/-- The breaker's state before any call. -/
def cb0 : CB := ⟨0, none⟩

/-- Result of one `_setup_trace_provider` call as seen by
`TempoClient.__init__`. -/
inductive SetupResult where
  /-- setup completed; the OTLP exporter was built with these
  credentials -/
  | ok (creds : Option Cred)
  /-- circuit open: the body never ran, the warning fallback did -/
  | fallback
  /-- an exception propagated to the caller (construction fails) -/
  | raised (e : PyError)
deriving DecidableEq

/-- `_setup_trace_provider` under its `@circuit` guard (core.py lines
47-85), driven by `cbCall`: when the breaker admits the call, the body
runs `_get_tempo_credentials` and builds the exporter; a read error is
not in the `expected_exception` tuple exactly when `isExpectedExc` of
its type is false. -/
def setup_trace_provider (cfg : TempoConfig)
    (readFile : String → Except PyError Bytes) (s : CB) (now : Nat) :
    SetupResult × CB :=
  match get_tempo_credentials cfg readFile with
  | Except.ok creds =>
    match cbCall s now SetupOutcome.succeeds with
    | (s', CallEffect.fallbackRan) => (SetupResult.fallback, s')
    | (s', _) => (SetupResult.ok creds, s')
  | Except.error e =>
    match cbCall s now
        (if isExpectedExc e.ty then SetupOutcome.failsExpected
         else SetupOutcome.failsUnexpected e) with
    | (s', CallEffect.fallbackRan) => (SetupResult.fallback, s')
    | (s', _) => (SetupResult.raised e, s')

/-! ### Client registry lifecycle
(`core.py` lines 195-243: module-global `tempo_client`, `init_tempo`,
`get_tempo`, `shutdown_tempo`) -/

structure InitArgs where
  service_name : String
  service_version : String
  environment : Option String
deriving DecidableEq

/-- A constructed `TempoClient`, identified by a construction serial
number so distinct constructions are distinguishable. -/
structure TempoClientM where
  id : Nat
  args : InitArgs
deriving DecidableEq

/-- The process state the registry functions touch: the module global
`tempo_client` plus instrumentation counters (how many constructions
and how many `TempoClient.shutdown` teardown/flush operations have
happened). -/
structure Registry where
  tempo_client : Option TempoClientM
  nextId : Nat
  constructions : Nat
  teardowns : Nat
deriving DecidableEq

/-- Process start: `tempo_client = None` (core.py line 196). -/
def registry0 : Registry := ⟨none, 0, 0, 0⟩

/-- `init_tempo` (core.py lines 199-220): constructs a client only
when the global is `None`, else returns the existing instance. -/
def init_tempo (a : InitArgs) (s : Registry) : TempoClientM × Registry :=
  match s.tempo_client with
  | some c => (c, s)
  | none =>
    let c : TempoClientM := ⟨s.nextId, a⟩
    (c, ⟨some c, s.nextId + 1, s.constructions + 1, s.teardowns⟩)

/-- `get_tempo` (core.py lines 223-235): raises `RuntimeError` when
unset. -/
def get_tempo (s : Registry) : Except PyError TempoClientM :=
  match s.tempo_client with
  | none => Except.error ⟨PyExcType.runtimeError,
      "Tempo client not initialized. Call init_tempo() first."⟩
  | some c => Except.ok c

/-- `shutdown_tempo` (core.py lines 238-243): when a client is set,
run its teardown (one flush/shutdown of the provider) and clear the
global; otherwise do nothing. -/
def shutdown_tempo (s : Registry) : Registry :=
  match s.tempo_client with
  | some _ => ⟨none, s.nextId, s.constructions, s.teardowns + 1⟩
  | none => s

/-! ### Helper lemmas -/

theorem headerAttrsList_not_sensitive (k : List Char) (w : AttrVal) :
    ∀ hs, isSensitiveHeader k = true →
      (AttrKey.header k, w) ∉ headerAttrsList hs := by
  intro hs hsens
  induction hs with
  | nil => simp [headerAttrsList]
  | cons kv rest ih =>
    obtain ⟨k', v'⟩ := kv
    simp only [headerAttrsList, List.mem_append]
    rintro (hhead | htail)
    · by_cases h : isSensitiveHeader k'
      · simp [h] at hhead
      · simp only [h, Bool.false_eq_true, if_neg] at hhead
        simp only [if_false, List.mem_singleton, Prod.mk.injEq,
          AttrKey.header.injEq] at hhead
        obtain ⟨rfl, -⟩ := hhead
        rw [hsens] at h
        exact h rfl
    · exact ih htail

theorem kwargAttrsList_not_sensitive (k : List Char) (w : AttrVal) :
    ∀ kwargs, isSensitiveKwarg k = true →
      (AttrKey.dbKwarg k, w) ∉ kwargAttrsList kwargs := by
  intro kwargs hsens
  induction kwargs with
  | nil => simp [kwargAttrsList]
  | cons kv rest ih =>
    obtain ⟨k', v'⟩ := kv
    simp only [kwargAttrsList, List.mem_append]
    rintro (hhead | htail)
    · by_cases h : isSensitiveKwarg k'
      · simp [h] at hhead
      · by_cases hl : v'.length ≤ 256
        · simp only [h, Bool.not_false, if_pos, hl, if_true,
            List.mem_singleton, Prod.mk.injEq, AttrKey.dbKwarg.injEq] at hhead
          obtain ⟨rfl, -⟩ := hhead
          rw [hsens] at h
          exact h rfl
        · simp [h, hl] at hhead
    · exact ih htail

theorem argAttrsFrom_shape (p : AttrKey × AttrVal) :
    ∀ xs j, p ∈ argAttrsFrom j xs →
      ∃ i v, p = (AttrKey.dbArg i, AttrVal.s v) := by
  intro xs
  induction xs with
  | nil => intro j h; simp [argAttrsFrom] at h
  | cons a rest ih =>
    intro j h
    simp only [argAttrsFrom, List.mem_append] at h
    rcases h with hhead | htail
    · by_cases hr : a.isRequest
      · simp [hr] at hhead
      · by_cases hl : a.strVal.length ≤ 256
        · simp only [hr, Bool.not_false, if_pos, hl, if_true,
            List.mem_singleton] at hhead
          exact ⟨j, a.strVal, hhead⟩
        · simp [hr, hl] at hhead
    · exact ih (j + 1) htail

theorem kwargAttrsList_shape (p : AttrKey × AttrVal) :
    ∀ kwargs, p ∈ kwargAttrsList kwargs →
      ∃ k v, p = (AttrKey.dbKwarg k, AttrVal.s v) := by
  intro kwargs
  induction kwargs with
  | nil => intro h; simp [kwargAttrsList] at h
  | cons kv rest ih =>
    obtain ⟨k', v'⟩ := kv
    intro h
    simp only [kwargAttrsList, List.mem_append] at h
    rcases h with hhead | htail
    · by_cases hs : isSensitiveKwarg k'
      · simp [hs] at hhead
      · by_cases hl : v'.length ≤ 256
        · simp only [hs, Bool.not_false, if_pos, hl, if_true,
            List.mem_singleton] at hhead
          exact ⟨k', v', hhead⟩
        · simp [hs, hl] at hhead
    · exact ih htail

theorem mem_kwargAttrsList (k v : List Char) :
    ∀ kwargs, (AttrKey.dbKwarg k, AttrVal.s v) ∈ kwargAttrsList kwargs ↔
      ((k, v) ∈ kwargs ∧ isSensitiveKwarg k = false ∧ v.length ≤ 256) := by
  intro kwargs
  induction kwargs with
  | nil => simp [kwargAttrsList]
  | cons kv rest ih =>
    obtain ⟨k', v'⟩ := kv
    simp only [kwargAttrsList, List.mem_append, ih, List.mem_cons, Prod.mk.injEq]
    constructor
    · rintro (hhead | ⟨hm, hs, hl⟩)
      · by_cases hs : isSensitiveKwarg k'
        · simp [hs] at hhead
        · by_cases hl : v'.length ≤ 256
          · simp only [hs, Bool.not_false, if_pos, hl, if_true,
              List.mem_singleton, Prod.mk.injEq, AttrKey.dbKwarg.injEq,
              AttrVal.s.injEq] at hhead
            obtain ⟨rfl, rfl⟩ := hhead
            exact ⟨Or.inl ⟨rfl, rfl⟩, Bool.eq_false_iff.mpr hs, hl⟩
          · simp [hs, hl] at hhead
      · exact ⟨Or.inr hm, hs, hl⟩
    · rintro ⟨(⟨rfl, rfl⟩ | hm), hs, hl⟩
      · exact Or.inl (by simp [hs, hl])
      · exact Or.inr ⟨hm, hs, hl⟩

theorem argAttrsFrom_sound (v : List Char) (i : Nat) :
    ∀ xs j, (AttrKey.dbArg i, AttrVal.s v) ∈ argAttrsFrom j xs →
      v.length ≤ 256 ∧ ∃ a, a ∈ xs ∧ a.isRequest = false ∧ v = a.strVal := by
  intro xs
  induction xs with
  | nil => intro j h; simp [argAttrsFrom] at h
  | cons a rest ih =>
    intro j h
    simp only [argAttrsFrom, List.mem_append] at h
    rcases h with hhead | htail
    · by_cases hr : a.isRequest
      · simp [hr] at hhead
      · by_cases hl : a.strVal.length ≤ 256
        · simp only [hr, Bool.not_false, if_pos, hl, if_true,
            List.mem_singleton, Prod.mk.injEq, AttrKey.dbArg.injEq,
            AttrVal.s.injEq] at hhead
          obtain ⟨-, rfl⟩ := hhead
          exact ⟨hl, a, List.mem_cons_self a rest, Bool.eq_false_iff.mpr hr, rfl⟩
        · simp [hr, hl] at hhead
    · obtain ⟨hlen, a', hm, hreq, hval⟩ := ih (j + 1) htail
      exact ⟨hlen, a', List.mem_cons_of_mem a hm, hreq, hval⟩

theorem argAttrsFrom_complete :
    ∀ (xs : List DbArg) (j i : Nat) (h : i < xs.length),
      (xs.get ⟨i, h⟩).isRequest = false →
      (xs.get ⟨i, h⟩).strVal.length ≤ 256 →
      (AttrKey.dbArg (j + i), AttrVal.s (xs.get ⟨i, h⟩).strVal) ∈ argAttrsFrom j xs := by
  intro xs
  induction xs with
  | nil => intro j i h; simp at h
  | cons a rest ih =>
    intro j i h hreq hlen
    cases i with
    | zero =>
      simp only [List.get] at hreq hlen ⊢
      simp only [argAttrsFrom, List.mem_append]
      exact Or.inl (by simp [hreq, hlen])
    | succ i' =>
      simp only [List.get] at hreq hlen ⊢
      simp only [argAttrsFrom, List.mem_append]
      have hmem := ih (j + 1) i' (Nat.lt_of_succ_lt_succ h) hreq hlen
      have hj : j + (i' + 1) = j + 1 + i' := by omega
      rw [hj]
      exact Or.inr hmem

/-- Parameter attributes with `db.kwarg.*` keys in the assembled DB
attribute list come exactly from the kwarg loop. -/
theorem mem_dbOperationAttrs_kwarg (op : List Char) (table : Option (List Char))
    (skipF : Bool) (args : List DbArg) (kwargs : List (List Char × List Char))
    (k : List Char) (w : AttrVal) :
    (AttrKey.dbKwarg k, w) ∈ dbOperationAttrs op table true skipF args kwargs ↔
      (AttrKey.dbKwarg k, w) ∈ kwargAttrsList kwargs := by
  simp only [dbOperationAttrs, if_true, List.mem_append]
  constructor
  · rintro ((hbase | htable) | harg | hkw)
    · simp at hbase
    · cases table with
      | none => simp at htable
      | some t => simp at htable
    · obtain ⟨i, v', hp⟩ := argAttrsFrom_shape _ _ _ harg
      simp at hp
    · exact hkw
  · intro h
    exact Or.inr (Or.inr h)

/-- Parameter attributes with `db.arg.*` keys in the assembled DB
attribute list come exactly from the positional-argument loop. -/
theorem mem_dbOperationAttrs_arg (op : List Char) (table : Option (List Char))
    (skipF : Bool) (args : List DbArg) (kwargs : List (List Char × List Char))
    (i : Nat) (w : AttrVal) :
    (AttrKey.dbArg i, w) ∈ dbOperationAttrs op table true skipF args kwargs ↔
      (AttrKey.dbArg i, w) ∈ argAttrsFrom 0 (if skipF then args.drop 1 else args) := by
  simp only [dbOperationAttrs, if_true, List.mem_append]
  constructor
  · rintro ((hbase | htable) | harg | hkw)
    · simp at hbase
    · cases table with
      | none => simp at htable
      | some t => simp at htable
    · exact harg
    · obtain ⟨k', v', hp⟩ := kwargAttrsList_shape _ _ hkw
      simp at hp
  · intro h
    exact Or.inr (Or.inl h)

/-- `http.header.*` attributes in the assembled request attribute list
come only from the header loop. -/
theorem mem_routeRequestAttrs_header (ihd iq ip : Bool) (req : RequestInfo)
    (k : List Char) (w : AttrVal) :
    (AttrKey.header k, w) ∈ routeRequestAttrs ihd iq ip req →
      (AttrKey.header k, w) ∈ headerAttrsList req.headers := by
  intro hmem
  simp only [routeRequestAttrs, List.mem_append, List.mem_cons] at hmem
  rcases hmem with (((h | h | h | h) | hq) | hp) | hh
  · simp at h
  · simp at h
  · simp at h
  · simp at h
  · cases iq <;> simp at hq
  · cases ip <;> simp at hp
  · cases ihd with
    | false => simp at hh
    | true => simpa using hh

/-! ### Claim theorems -/

/-- C1.  The claim says a faulting wrapped function is re-raised
unchanged with exactly one invocation.  The code records the fault on
the span (exception event, ERROR status, error attributes), but the
deliberate re-raise is then caught by the wrappers' outer fallback
handler (`api_tracing.py` lines 175-179 and 298-301), which invokes
the wrapped function a second time.  Evaluated here at a handler that
raises `ValueError("bad input")` on its first invocation and succeeds
on its second: the caller observes a successful return (the exception
is masked entirely), with two invocations; and at a function that
always raises, the caller observes the second invocation's exception,
still with two invocations. -/
theorem c1_wrapped_fault_reexecuted :
    route_execute_with_span true false
        (fun n => if n = 0 then Outcome.exc ⟨"ValueError".toList, "bad input".toList⟩
                  else Outcome.ret 7)
      = ⟨Outcome.ret 7, 2,
         some ⟨SpanStatus.error, [⟨"ValueError".toList, "bad input".toList⟩],
               some ("bad input".toList), some ("ValueError".toList)⟩⟩
    ∧ db_wrapper_run true false
        (fun _ => Outcome.exc ⟨"ValueError".toList, "bad input".toList⟩)
      = ⟨Outcome.exc ⟨"ValueError".toList, "bad input".toList⟩, 2,
         some ⟨SpanStatus.error, [⟨"ValueError".toList, "bad input".toList⟩],
               some ("bad input".toList), some ("ValueError".toList)⟩⟩ := by
  constructor <;> rfl

/-- C2.  The claim says that with no tracing client available the
wrapped function runs exactly once and its exception propagates
unchanged.  This holds for `trace_db_operation` (its no-client early
return at lines 231-232 precedes the `try`), but in `trace_api_route`
the no-client call at line 131 sits inside the outer `try`, so a
faulting handler is caught at line 175 and invoked a second time.
Evaluated at a function that always raises `ValueError("bad input")`
with both clients unavailable: the route wrapper makes 2 invocations
(the db wrapper makes 1, and the route wrapper's success path makes
1). -/
theorem c2_no_client_route_reexecutes :
    route_execute_with_span false false
        (fun _ => Outcome.exc ⟨"ValueError".toList, "bad input".toList⟩)
      = ⟨Outcome.exc ⟨"ValueError".toList, "bad input".toList⟩, 2, none⟩
    ∧ db_wrapper_run false false
        (fun _ => Outcome.exc ⟨"ValueError".toList, "bad input".toList⟩)
      = ⟨Outcome.exc ⟨"ValueError".toList, "bad input".toList⟩, 1, none⟩
    ∧ route_execute_with_span false false (fun _ => Outcome.ret 5)
      = ⟨Outcome.ret 5, 1, none⟩ := by
  exact ⟨rfl, rfl, rfl⟩

/-- C8 counterexample.  The claim says every non-redacted keyword
argument yields an attribute whose value is its stringification
truncated to 256 characters.  For a kwarg `q` whose stringification
has 257 characters, `trace_db_operation` (line 260: `if len(value_str)
<= 256`) attaches nothing at all — the only attribute produced is
`db.operation`, with no `db.kwarg.q` attribute (truncated or
otherwise). -/
theorem c8_long_value_counterexample :
    dbOperationAttrs ("select".toList) none true false []
        [("q".toList, List.replicate 257 'a')]
      = [(AttrKey.dbOperation, AttrVal.s ("select".toList))] := by
  decide

/-- C9.  Registry lifecycle from process start: a second `init_tempo`
(with any arguments) returns the client constructed by the first and
performs no construction; `shutdown_tempo` tears the provider down
once and clears the global; a second `shutdown_tempo` is a no-op (no
error, no second teardown/flush). -/
theorem c9_lifecycle_idempotent (a1 a2 : InitArgs) :
    (init_tempo a2 (init_tempo a1 registry0).2).1 = (init_tempo a1 registry0).1
    ∧ (init_tempo a2 (init_tempo a1 registry0).2).2 = (init_tempo a1 registry0).2
    ∧ (init_tempo a2 (init_tempo a1 registry0).2).2.constructions = 1
    ∧ (shutdown_tempo (init_tempo a1 registry0).2).tempo_client = none
    ∧ (shutdown_tempo (init_tempo a1 registry0).2).teardowns = 1
    ∧ shutdown_tempo (shutdown_tempo (init_tempo a1 registry0).2)
        = shutdown_tempo (init_tempo a1 registry0).2
    ∧ (shutdown_tempo (shutdown_tempo (init_tempo a1 registry0).2)).teardowns = 1 := by
  exact ⟨rfl, rfl, rfl, rfl, rfl, rfl, rfl⟩

/-- C3.  The exporter-setup circuit breaker (modelled from the spec;
configured with threshold 3 and timeout 30 in core.py lines 47-52)
satisfies the specified state machine: from the initial CLOSED state,
exactly 3 consecutive expected failures open it (after 2 it is still
closed and still executes the body); while OPEN and before the
30-second timeout a call does not execute the body and invokes the
fallback; once the timeout has elapsed the breaker is HALF_OPEN and
the next call is allowed through; a successful probe returns to
CLOSED with the failure counter reset to 0; a failing probe re-opens
with the timer restarted, so calls within the next 30 seconds fall
back again. -/
theorem c3_circuit_state_machine (t1 t2 t3 tO tP tQ : Nat)
    (hO : tO < t3 + 30) (hP : t3 + 30 ≤ tP) (hQ : tQ < tP + 30) :
    cbCall cb0 t1 SetupOutcome.failsExpected = (⟨1, none⟩, CallEffect.bodyRan false)
    ∧ cbCall ⟨1, none⟩ t2 SetupOutcome.failsExpected
        = (⟨2, none⟩, CallEffect.bodyRan false)
    ∧ cbKind ⟨2, none⟩ t3 = CBKind.closed
    ∧ cbCall ⟨2, none⟩ t3 SetupOutcome.failsExpected
        = (⟨3, some t3⟩, CallEffect.bodyRan false)
    ∧ cbKind ⟨3, some t3⟩ tO = CBKind.opened
    ∧ cbCall ⟨3, some t3⟩ tO SetupOutcome.succeeds
        = (⟨3, some t3⟩, CallEffect.fallbackRan)
    ∧ cbKind ⟨3, some t3⟩ tP = CBKind.halfOpen
    ∧ cbCall ⟨3, some t3⟩ tP SetupOutcome.succeeds
        = (⟨0, none⟩, CallEffect.bodyRan true)
    ∧ cbCall ⟨3, some t3⟩ tP SetupOutcome.failsExpected
        = (⟨4, some tP⟩, CallEffect.bodyRan false)
    ∧ cbCall ⟨4, some tP⟩ tQ SetupOutcome.failsExpected
        = (⟨4, some tP⟩, CallEffect.fallbackRan) := by
  have hkO : cbKind ⟨3, some t3⟩ tO = CBKind.opened := by
    simp [cbKind, hO]
  have hkP : cbKind ⟨3, some t3⟩ tP = CBKind.halfOpen := by
    simp [cbKind, Nat.not_lt.mpr hP]
  have hkQ : cbKind ⟨4, some tP⟩ tQ = CBKind.opened := by
    simp [cbKind, hQ]
  refine ⟨rfl, rfl, rfl, rfl, hkO, ?_, hkP, ?_, ?_, ?_⟩
  · simp [cbCall, hkO]
  · simp [cbCall, hkP]
  · simp [cbCall, hkP]
  · simp [cbCall, hkQ]

/-- C3 witness at concrete times: failures at 0, 1, 2 open the
breaker, a call at 10 falls back, the breaker is half-open at 32, and
a failed probe at 32 keeps calls at 40 falling back. -/
theorem c3_circuit_state_machine_witness :
    cbCall cb0 0 SetupOutcome.failsExpected = (⟨1, none⟩, CallEffect.bodyRan false)
    ∧ cbCall ⟨1, none⟩ 1 SetupOutcome.failsExpected
        = (⟨2, none⟩, CallEffect.bodyRan false)
    ∧ cbKind ⟨2, none⟩ 2 = CBKind.closed
    ∧ cbCall ⟨2, none⟩ 2 SetupOutcome.failsExpected
        = (⟨3, some 2⟩, CallEffect.bodyRan false)
    ∧ cbKind ⟨3, some 2⟩ 10 = CBKind.opened
    ∧ cbCall ⟨3, some 2⟩ 10 SetupOutcome.succeeds
        = (⟨3, some 2⟩, CallEffect.fallbackRan)
    ∧ cbKind ⟨3, some 2⟩ 32 = CBKind.halfOpen
    ∧ cbCall ⟨3, some 2⟩ 32 SetupOutcome.succeeds
        = (⟨0, none⟩, CallEffect.bodyRan true)
    ∧ cbCall ⟨3, some 2⟩ 32 SetupOutcome.failsExpected
        = (⟨4, some 32⟩, CallEffect.bodyRan false)
    ∧ cbCall ⟨4, some 32⟩ 40 SetupOutcome.failsExpected
        = (⟨4, some 32⟩, CallEffect.fallbackRan) :=
  c3_circuit_state_machine 0 1 2 10 32 40 (by decide) (by decide) (by decide)

/-- C4.  With CA, cert and key paths all configured, a failing read of
any one of the three files makes `TempoClient` construction fail with
that IO-class error: `_setup_trace_provider` returns `raised e` (the
same error object), the breaker state is unchanged (the error is not
in the `expected_exception` tuple, so it does not count as a circuit
failure), the fallback is not invoked, and no exporter is built (so no
downgrade to credential-less transport). -/
theorem c4_tls_read_error_propagates (cfg : TempoConfig)
    (rf : String → Except PyError Bytes) (s : CB) (now : Nat) (e : PyError)
    (hca : pyTruthy cfg.ca_file = true) (hcert : pyTruthy cfg.cert_file = true)
    (hkey : pyTruthy cfg.key_file = true)
    (hkind : cbKind s now ≠ CBKind.opened)
    (hio : isFileIOError e.ty = true)
    (hfail :
      rf (cfg.ca_file.getD "") = Except.error e
      ∨ (∃ b1, rf (cfg.ca_file.getD "") = Except.ok b1
           ∧ rf (cfg.cert_file.getD "") = Except.error e)
      ∨ (∃ b1 b2, rf (cfg.ca_file.getD "") = Except.ok b1
           ∧ rf (cfg.cert_file.getD "") = Except.ok b2
           ∧ rf (cfg.key_file.getD "") = Except.error e)) :
    setup_trace_provider cfg rf s now = (SetupResult.raised e, s) := by
  have hcred : get_tempo_credentials cfg rf = Except.error e := by
    rcases hfail with h1 | ⟨b1, h1, h2⟩ | ⟨b1, b2, h1, h2, h3⟩
    · simp [get_tempo_credentials, hca, hcert, hkey, h1, Bind.bind, Except.bind]
    · simp [get_tempo_credentials, hca, hcert, hkey, h1, h2, Bind.bind, Except.bind]
    · simp [get_tempo_credentials, hca, hcert, hkey, h1, h2, h3, Bind.bind,
        Except.bind]
  have hexp : isExpectedExc e.ty = false := fileIOError_not_expected e.ty hio
  cases hk : cbKind s now with
  | opened => exact absurd hk hkind
  | closed => simp [setup_trace_provider, hcred, hexp, cbCall, hk]
  | halfOpen => simp [setup_trace_provider, hcred, hexp, cbCall, hk]

/-- C4 witness: a concrete configuration whose cert file read raises
`FileNotFoundError` aborts construction with that error, leaving the
fresh breaker untouched. -/
theorem c4_tls_read_error_propagates_witness :
    setup_trace_provider
      ⟨some "ca.pem", some "cert.pem", some "key.pem", none, none, none⟩
      (fun p => if p = "ca.pem" then Except.ok [1]
                else Except.error ⟨PyExcType.fileNotFoundError, "no such file"⟩)
      cb0 0
    = (SetupResult.raised ⟨PyExcType.fileNotFoundError, "no such file"⟩, cb0) :=
  c4_tls_read_error_propagates _ _ _ _ _ (by decide) (by decide) (by decide)
    (by decide) (by decide)
    (Or.inr (Or.inl ⟨[1], rfl, rfl⟩))

/-- C5.  Credential resolution is case-correct: (1) a complete TLS
triple with no username+password pair and no bearer token yields the
TLS credential alone; (2) a complete TLS triple with username and
password yields the TLS credential composed with a call credential
carrying `"username:password"`; (3) a bearer token alone (no complete
triple, no username+password pair) yields the bearer call credential
with no TLS; (4) none of these yields no credentials (`None`). -/
theorem c5_credential_resolution (cfg : TempoConfig)
    (rf : String → Except PyError Bytes) (b1 b2 b3 : Bytes) :
    (((pyTruthy cfg.ca_file && pyTruthy cfg.cert_file && pyTruthy cfg.key_file) = true →
      (pyTruthy cfg.username && pyTruthy cfg.password) = false →
      pyTruthy cfg.bearer_token = false →
      rf (cfg.ca_file.getD "") = Except.ok b1 →
      rf (cfg.cert_file.getD "") = Except.ok b2 →
      rf (cfg.key_file.getD "") = Except.ok b3 →
      get_tempo_credentials cfg rf = Except.ok (some (Cred.ssl b1 b3 b2))))
    ∧ (((pyTruthy cfg.ca_file && pyTruthy cfg.cert_file && pyTruthy cfg.key_file) = true →
      (pyTruthy cfg.username && pyTruthy cfg.password) = true →
      rf (cfg.ca_file.getD "") = Except.ok b1 →
      rf (cfg.cert_file.getD "") = Except.ok b2 →
      rf (cfg.key_file.getD "") = Except.ok b3 →
      get_tempo_credentials cfg rf = Except.ok (some (Cred.composite
        (Cred.ssl b1 b3 b2)
        (Cred.accessToken ((cfg.username.getD "") ++ ":" ++ (cfg.password.getD "")))))))
    ∧ (((pyTruthy cfg.ca_file && pyTruthy cfg.cert_file && pyTruthy cfg.key_file) = false →
      (pyTruthy cfg.username && pyTruthy cfg.password) = false →
      pyTruthy cfg.bearer_token = true →
      get_tempo_credentials cfg rf
        = Except.ok (some (Cred.accessToken (cfg.bearer_token.getD "")))))
    ∧ (((pyTruthy cfg.ca_file && pyTruthy cfg.cert_file && pyTruthy cfg.key_file) = false →
      (pyTruthy cfg.username && pyTruthy cfg.password) = false →
      pyTruthy cfg.bearer_token = false →
      get_tempo_credentials cfg rf = Except.ok none)) := by
  refine ⟨?_, ?_, ?_, ?_⟩
  · intro htls hup hbt h1 h2 h3
    simp [get_tempo_credentials, htls, hup, hbt, h1, h2, h3, Bind.bind,
        Except.bind, Pure.pure, Except.pure]
  · intro htls hup h1 h2 h3
    simp [get_tempo_credentials, htls, hup, h1, h2, h3, Bind.bind,
        Except.bind, Pure.pure, Except.pure]
  · intro htls hup hbt
    simp [get_tempo_credentials, htls, hup, hbt, Pure.pure, Except.pure]
  · intro htls hup hbt
    simp [get_tempo_credentials, htls, hup, hbt, Pure.pure, Except.pure]

/-- C5 witness: the four cases at concrete configurations — TLS triple
only; TLS triple plus username/password; bearer token only; nothing. -/
theorem c5_credential_resolution_witness :
    get_tempo_credentials
      ⟨some "ca", some "crt", some "key", none, none, none⟩
      (fun p => if p = "ca" then Except.ok [1]
                else if p = "crt" then Except.ok [2] else Except.ok [3])
      = Except.ok (some (Cred.ssl [1] [3] [2]))
    ∧ get_tempo_credentials
        ⟨some "ca", some "crt", some "key", some "u", some "pw", none⟩
        (fun p => if p = "ca" then Except.ok [1]
                  else if p = "crt" then Except.ok [2] else Except.ok [3])
      = Except.ok (some (Cred.composite (Cred.ssl [1] [3] [2])
          (Cred.accessToken "u:pw")))
    ∧ get_tempo_credentials ⟨none, none, none, none, none, some "tok"⟩
        (fun _ => Except.ok [])
      = Except.ok (some (Cred.accessToken "tok"))
    ∧ get_tempo_credentials ⟨none, none, none, none, none, none⟩
        (fun _ => Except.ok [])
      = Except.ok none := by
  refine ⟨?_, ?_, ?_, ?_⟩
  · exact (c5_credential_resolution _ _ [1] [2] [3]).1 (by decide) (by decide)
      (by decide) rfl rfl rfl
  · exact (c5_credential_resolution _ _ [1] [2] [3]).2.1 (by decide) (by decide)
      rfl rfl rfl
  · exact (c5_credential_resolution _ _ [] [] []).2.2.1 (by decide) (by decide)
      (by decide)
  · exact (c5_credential_resolution _ _ [] [] []).2.2.2 (by decide) (by decide)
      (by decide)

/-- C10.  When username, password and a bearer token are all set,
resolution uses the `"username:password"` call credential and the
bearer token is silently ignored (the result is built without it and
no error is raised), both with a complete TLS triple and without
one. -/
theorem c10_userpass_precedence (cfg : TempoConfig)
    (rf : String → Except PyError Bytes) (b1 b2 b3 : Bytes)
    (hu : pyTruthy cfg.username = true) (hp : pyTruthy cfg.password = true)
    (hb : pyTruthy cfg.bearer_token = true) :
    (((pyTruthy cfg.ca_file && pyTruthy cfg.cert_file && pyTruthy cfg.key_file) = true →
      rf (cfg.ca_file.getD "") = Except.ok b1 →
      rf (cfg.cert_file.getD "") = Except.ok b2 →
      rf (cfg.key_file.getD "") = Except.ok b3 →
      get_tempo_credentials cfg rf = Except.ok (some (Cred.composite
        (Cred.ssl b1 b3 b2)
        (Cred.accessToken ((cfg.username.getD "") ++ ":" ++ (cfg.password.getD "")))))))
    ∧ (((pyTruthy cfg.ca_file && pyTruthy cfg.cert_file && pyTruthy cfg.key_file) = false →
      get_tempo_credentials cfg rf = Except.ok (some
        (Cred.accessToken ((cfg.username.getD "") ++ ":" ++ (cfg.password.getD "")))))) := by
  constructor
  · intro htls h1 h2 h3
    simp [get_tempo_credentials, htls, hu, hp, h1, h2, h3, Bind.bind,
        Except.bind, Pure.pure, Except.pure]
  · intro htls
    simp [get_tempo_credentials, htls, hu, hp, Pure.pure, Except.pure]

/-- C10 witness: with username `u`, password `pw` and bearer token
`tok` all set, the result carries `"u:pw"` and not the bearer token,
both with and without the TLS triple. -/
theorem c10_userpass_precedence_witness :
    get_tempo_credentials
      ⟨some "ca", some "crt", some "key", some "u", some "pw", some "tok"⟩
      (fun p => if p = "ca" then Except.ok [1]
                else if p = "crt" then Except.ok [2] else Except.ok [3])
      = Except.ok (some (Cred.composite (Cred.ssl [1] [3] [2])
          (Cred.accessToken "u:pw")))
    ∧ get_tempo_credentials ⟨none, none, none, some "u", some "pw", some "tok"⟩
        (fun _ => Except.ok [])
      = Except.ok (some (Cred.accessToken "u:pw")) := by
  constructor
  · exact (c10_userpass_precedence _ _ [1] [2] [3] (by decide) (by decide)
      (by decide)).1 (by decide) rfl rfl rfl
  · exact (c10_userpass_precedence _ _ [] [] [] (by decide) (by decide)
      (by decide)).2 (by decide)

/-- C6.  Redaction: no span attribute is ever attached for a request
header whose name is `authorization` or `cookie` in any character case
(i.e. whose Python-lowered name equals one of the two), for any
toggle combination; and no span attribute is ever attached for a DB
keyword argument whose name contains `password` or `secret`, for any
`include_parameters` value. -/
theorem c6_sensitive_redaction :
    (∀ (ihd iq ip : Bool) (req : RequestInfo) (k : List Char) (w : AttrVal),
      (k.map pyLower = "authorization".toList ∨ k.map pyLower = "cookie".toList) →
      (AttrKey.header k, w) ∉ routeRequestAttrs ihd iq ip req)
    ∧ (∀ (op : List Char) (table : Option (List Char)) (inc skipF : Bool)
        (args : List DbArg) (kwargs : List (List Char × List Char))
        (k : List Char) (w : AttrVal),
      (containsSub ("password".toList) k = true
        ∨ containsSub ("secret".toList) k = true) →
      (AttrKey.dbKwarg k, w) ∉ dbOperationAttrs op table inc skipF args kwargs) := by
  constructor
  · intro ihd iq ip req k w hk hmem
    have hh := mem_routeRequestAttrs_header ihd iq ip req k w hmem
    have hs : isSensitiveHeader k = true := by
      rcases hk with h | h <;> simp [isSensitiveHeader, h]
    exact headerAttrsList_not_sensitive k w req.headers hs hh
  · intro op table inc skipF args kwargs k w hk hmem
    have hs : isSensitiveKwarg k = true := by
      rcases hk with h | h
      · have hcs := containsSub_map pyLower ("password".toList) k h
        rw [show ("password".toList).map pyLower = "password".toList from by decide]
          at hcs
        simp only [isSensitiveKwarg, Bool.or_eq_true]
        exact Or.inl hcs
      · have hcs := containsSub_map pyLower ("secret".toList) k h
        rw [show ("secret".toList).map pyLower = "secret".toList from by decide]
          at hcs
        simp only [isSensitiveKwarg, Bool.or_eq_true]
        exact Or.inr hcs
    cases inc with
    | false =>
      cases table with
      | none => simp [dbOperationAttrs] at hmem
      | some t => simp [dbOperationAttrs] at hmem
    | true =>
      have hkw := (mem_dbOperationAttrs_kwarg op table skipF args kwargs k w).mp hmem
      exact kwargAttrsList_not_sensitive k w kwargs hs hkw

/-- C6 witness: a request carrying an `Authorization` header traced
with all toggles on yields no attribute for it, and a DB call with a
`user_password` kwarg yields no attribute for it. -/
theorem c6_sensitive_redaction_witness :
    (AttrKey.header ("Authorization".toList), AttrVal.s ("Bearer abc".toList))
      ∉ routeRequestAttrs true true true
          ⟨"GET".toList, "http://s/u".toList, "/u".toList, [], [],
           [("Authorization".toList, "Bearer abc".toList)]⟩
    ∧ (AttrKey.dbKwarg ("user_password".toList), AttrVal.s ("hunter2".toList))
      ∉ dbOperationAttrs ("insert".toList) (some ("users".toList)) true false []
          [("user_password".toList, "hunter2".toList)] :=
  ⟨c6_sensitive_redaction.1 true true true _ _ _ (Or.inl (by decide)),
   c6_sensitive_redaction.2 _ _ true false _ _ _ _ (Or.inl (by decide))⟩

/-- C7.  The route wrapper attaches an `http.response.body` attribute
only when `include_response_body` is true, and when attached its value
is the decoded response body, of length at most 4096; with
`include_response_body = false` no response-body attribute ever
appears, whatever the response. -/
theorem c7_response_body_gating (ib : Bool) (resp : Option RespInfo) (w : AttrVal) :
    ((AttrKey.responseBody, w) ∈ routeResponseAttrs ib resp →
      ib = true ∧ ∃ r b, resp = some r ∧ r.body = some b
        ∧ w = AttrVal.s b ∧ b.length ≤ 4096)
    ∧ ((AttrKey.responseBody, w) ∈ routeResponseAttrs false resp → False) := by
  constructor
  · intro hmem
    cases resp with
    | none => simp [routeResponseAttrs] at hmem
    | some r =>
      rcases List.mem_append.mp hmem with hsc | hbody
      · simp at hsc
      · cases ib with
        | false => simp at hbody
        | true =>
          cases hb : r.body with
          | none => rw [hb] at hbody; simp at hbody
          | some b =>
            rw [hb] at hbody
            by_cases hl : b.length ≤ 4096
            · simp only [if_true, hl, if_pos, List.mem_singleton,
                Prod.mk.injEq] at hbody
              exact ⟨rfl, r, b, rfl, hb, hbody.2, hl⟩
            · simp [hl] at hbody
  · intro hmem
    cases resp with
    | none => simp [routeResponseAttrs] at hmem
    | some r => simp [routeResponseAttrs] at hmem

/-- C7 witness: with the toggle on and a 2-character body, the
attribute is present and the theorem yields its characterisation. -/
theorem c7_response_body_gating_witness :
    (AttrKey.responseBody, AttrVal.s ("ok".toList))
      ∈ routeResponseAttrs true (some ⟨200, some ("ok".toList)⟩)
    ∧ (true = true ∧ ∃ r b,
        (some (⟨200, some ("ok".toList)⟩ : RespInfo)) = some r
        ∧ r.body = some b ∧ AttrVal.s ("ok".toList) = AttrVal.s b
        ∧ b.length ≤ 4096) :=
  have hm : (AttrKey.responseBody, AttrVal.s ("ok".toList))
      ∈ routeResponseAttrs true (some ⟨200, some ("ok".toList)⟩) := by decide
  ⟨hm, (c7_response_body_gating true (some ⟨200, some ("ok".toList)⟩)
    (AttrVal.s ("ok".toList))).1 hm⟩

/-- C8 amended.  With `include_parameters=True`, each non-redacted
keyword argument and each non-skipped positional argument is attached
with its exact (untruncated) stringification as the attribute value
when that stringification has at most 256 characters; an argument
whose stringification exceeds 256 characters yields no attribute at
all (it is omitted, not truncated). -/
theorem c8_param_attrs_amended (op : List Char) (table : Option (List Char))
    (skipF : Bool) (args : List DbArg) (kwargs : List (List Char × List Char)) :
    (∀ k v, (AttrKey.dbKwarg k, AttrVal.s v)
        ∈ dbOperationAttrs op table true skipF args kwargs →
      v.length ≤ 256 ∧ (k, v) ∈ kwargs ∧ isSensitiveKwarg k = false)
    ∧ (∀ k v, (k, v) ∈ kwargs → isSensitiveKwarg k = false → v.length ≤ 256 →
      (AttrKey.dbKwarg k, AttrVal.s v)
        ∈ dbOperationAttrs op table true skipF args kwargs)
    ∧ (∀ i v, (AttrKey.dbArg i, AttrVal.s v)
        ∈ dbOperationAttrs op table true skipF args kwargs →
      v.length ≤ 256 ∧ ∃ a, a ∈ (if skipF then args.drop 1 else args)
        ∧ a.isRequest = false ∧ v = a.strVal)
    ∧ (∀ i (h : i < (if skipF then args.drop 1 else args).length),
      ((if skipF then args.drop 1 else args).get ⟨i, h⟩).isRequest = false →
      ((if skipF then args.drop 1 else args).get ⟨i, h⟩).strVal.length ≤ 256 →
      (AttrKey.dbArg i,
        AttrVal.s ((if skipF then args.drop 1 else args).get ⟨i, h⟩).strVal)
        ∈ dbOperationAttrs op table true skipF args kwargs) := by
  refine ⟨?_, ?_, ?_, ?_⟩
  · intro k v hmem
    have hkw := (mem_dbOperationAttrs_kwarg op table skipF args kwargs k
      (AttrVal.s v)).mp hmem
    have hc := (mem_kwargAttrsList k v kwargs).mp hkw
    exact ⟨hc.2.2, hc.1, hc.2.1⟩
  · intro k v hm hs hl
    exact (mem_dbOperationAttrs_kwarg op table skipF args kwargs k
      (AttrVal.s v)).mpr ((mem_kwargAttrsList k v kwargs).mpr ⟨hm, hs, hl⟩)
  · intro i v hmem
    exact argAttrsFrom_sound v i (if skipF then args.drop 1 else args) 0
      ((mem_dbOperationAttrs_arg op table skipF args kwargs i (AttrVal.s v)).mp hmem)
  · intro i h hreq hlen
    have hmem := argAttrsFrom_complete (if skipF then args.drop 1 else args)
      0 i h hreq hlen
    rw [Nat.zero_add] at hmem
    exact (mem_dbOperationAttrs_arg op table skipF args kwargs i _).mpr hmem

/-- C8 amended witness: a short kwarg and a short positional argument
are both attached with their exact stringifications. -/
theorem c8_param_attrs_amended_witness :
    (AttrKey.dbKwarg ("user".toList), AttrVal.s ("alice".toList))
      ∈ dbOperationAttrs ("select".toList) none true false
          [⟨false, "42".toList⟩] [("user".toList, "alice".toList)]
    ∧ (AttrKey.dbArg 0, AttrVal.s ("42".toList))
      ∈ dbOperationAttrs ("select".toList) none true false
          [⟨false, "42".toList⟩] [("user".toList, "alice".toList)] := by
  constructor
  · exact (c8_param_attrs_amended ("select".toList) none false
      [⟨false, "42".toList⟩] [("user".toList, "alice".toList)]).2.1
      ("user".toList) ("alice".toList) (by decide) (by decide) (by decide)
  · have h0 : (0 : Nat) < (if false then
        ([⟨false, "42".toList⟩] : List DbArg).drop 1
      else [⟨false, "42".toList⟩]).length := by decide
    exact (c8_param_attrs_amended ("select".toList) none false
      [⟨false, "42".toList⟩] [("user".toList, "alice".toList)]).2.2.2
      0 h0 rfl (show ("42".toList).length ≤ 256 from by decide)

end Tempo
